import Mathlib

/-!
Verification of the WeatherForecastCLI program (`forecast.py`).

The program is a linear pipeline: parse a city (and optional country) from
the command line, resolve it to coordinates through a geocoding HTTP
endpoint, fetch a forecast through a forecast HTTP endpoint, and print the
entries.  We give a shallow embedding of the four stages.

Modelling conventions:

* HTTP I/O is an oracle: each fetch function receives the response the
  network would give it.  A response is either a transport-level failure
  (`requests.get` raising a `RequestException`) or a status code plus a
  decoded body; `response.raise_for_status()` raises exactly when
  `400 ≤ status < 600`.
* Python exceptions are explicit: a stage's result is `Except PyExn _`,
  where `.error` means the exception escaped the stage uncaught.  Crucially,
  the source puts `response.json()` and the field extractions in the `else:`
  suite of `try/except/else`, and Python does not route exceptions raised in
  an `else:` suite to the `except` clauses.
* JSON numbers (latitude, longitude, temperature) are never used
  arithmetically by the program — they are only carried through and printed —
  so they are embedded as their decimal text (`String`).
* Missing dictionary keys are modelled with `Option`; the nested lookups
  of `main.temp` and of `weather[0].description` in an entry are
  flattened to single optional fields, since every failure among them is
  caught by the same `except` clauses of `print_weather`.
* `print` output is a list of printed lines; `termcolor.colored` wraps the
  text in the actual ANSI escape sequences.
-/

instance {ε α : Type} [DecidableEq ε] [DecidableEq α] : DecidableEq (Except ε α)
  | .ok a, .ok b =>
      if h : a = b then .isTrue (by rw [h])
      else .isFalse (by intro hh; injection hh; contradiction)
  | .ok _, .error _ => .isFalse (by intro hh; cases hh)
  | .error _, .ok _ => .isFalse (by intro hh; cases hh)
  | .error a, .error b =>
      if h : a = b then .isTrue (by rw [h])
      else .isFalse (by intro hh; injection hh; contradiction)

/-- ANSI color code used by `termcolor` for the color names the program uses. -/
def colorCode : String → String
  | "red" => "31"
  | "green" => "32"
  | "yellow" => "33"
  | "blue" => "34"
  | "cyan" => "36"
  | _ => "0"

/-- `termcolor.colored text color`: wrap `text` in ANSI escape sequences. -/
def colored (text color : String) : String :=
  "\x1b[" ++ colorCode color ++ "m" ++ text ++ "\x1b[0m"

/-- Python exceptions that the embedded fragments can raise. -/
inductive PyExn where
  | keyError (key : String)
  | jsonDecodeError
deriving DecidableEq

/-- Printed rendering of an exception (what `print(..., err)` appends). -/
def errText : PyExn → String
  | .keyError k => "\x27" ++ k ++ "\x27"
  | .jsonDecodeError => "Expecting value: line 1 column 1 (char 0)"

/-- A line printed by the two-argument call of `print` on the red error
label and the exception: `print` joins its arguments with a single space. -/
def errLine (e : PyExn) : String :=
  colored "Error: " "red" ++ " " ++ errText e

/-- One element of the geocoding endpoint's JSON array.  `none` models a
missing `lat` / `lon` key. -/
structure GeoObj where
  lat : Option String
  lon : Option String
deriving DecidableEq

/-- Decoded body of a geocode response: either a body `response.json()`
cannot decode, or the JSON array the geocoding endpoint returns. -/
inductive GeoBody where
  | badJson
  | jarr (results : List GeoObj)
deriving DecidableEq

/-- Outcome of `requests.get` on the geocode endpoint. -/
inductive GeoResponse where
  | netError (msg : String)
  | httpResponse (status : Nat) (body : GeoBody)
deriving DecidableEq

/-- One entry of the forecast payload's `list` field.  `main_temp` flattens
`main.temp` and `weather0_desc` flattens `weather[0].description`; `none`
models any missing key (or empty `weather` array) along the path. -/
structure FcEntry where
  dt_txt : Option String
  main_temp : Option String
  weather0_desc : Option String
deriving DecidableEq

/-- Decoded body of a forecast response: an undecodable body, or a JSON
object whose optional field is the `list` value (`none`: no `list` key). -/
inductive FcBody where
  | badJson
  | jobj (list? : Option (List FcEntry))
deriving DecidableEq

/-- Outcome of `requests.get` on the forecast endpoint. -/
inductive FcResponse where
  | netError (msg : String)
  | httpResponse (status : Nat) (body : FcBody)
deriving DecidableEq

/-- Query parameters of the geocode request. -/
structure GeoParams where
  q : String
  limit : Nat
  appid : String
deriving DecidableEq

/-- Query parameters of the forecast request. -/
structure FcParams where
  lat : String
  lon : String
  appid : String
  units : String
  lang : String
deriving DecidableEq

/-- Parameter dictionary built at the top of `get_coordinates`: Python's
`if country:` is true exactly for a present, non-empty country string. -/
def geocodeParams (apiKey city : String) (country : Option String) : GeoParams :=
  match country with
  | some c => if c = "" then { q := city, limit := 1, appid := apiKey }
              else { q := city ++ "," ++ c, limit := 1, appid := apiKey }
  | none => { q := city, limit := 1, appid := apiKey }

/-- Parameter dictionary built in `get_forecast`. -/
def forecastParams (apiKey lat lon : String) : FcParams :=
  { lat := lat, lon := lon, appid := apiKey, units := "imperial", lang := "en" }

/-- Printed text of an `HTTPError` for a non-404, non-401 status (the exact
text comes from the `requests` library; only its presence matters here). -/
def httpErrText (status : Nat) : String :=
  toString status ++ " Error"

/--
`get_coordinates(city, country)` of `forecast.py`.

Returns the request it issued, the lines it printed, and its result:
`.ok (some (lat, lon))` for a successful return, `.ok none` when the
function falls off the end (Python returns `None`), `.error e` when the
exception `e` escapes uncaught.  The `try` suite covers only `requests.get`
and `raise_for_status`; the `else:` suite (`response.json()`, truthiness
test, and the `lat` / `lon` lookups on `data[0]`) is outside the `except`
clauses, so exceptions raised there escape.
-/
def get_coordinates (apiKey city : String) (country : Option String)
    (resp : GeoResponse) :
    GeoParams × List String × Except PyExn (Option (String × String)) :=
  let params := geocodeParams apiKey city country
  match resp with
  | .netError msg =>
      (params, [colored "Error: " "red" ++ " " ++ msg], .ok none)
  | .httpResponse status body =>
      if 400 ≤ status ∧ status < 600 then
        if status = 404 then
          (params, [colored ("Error: City " ++ city ++ " not found.") "red"], .ok none)
        else if status = 401 then
          (params, [colored "Error: Invalid API key" "red"], .ok none)
        else
          (params, [colored "Error: " "red" ++ " " ++ httpErrText status], .ok none)
      else
        match body with
        | .badJson => (params, [], .error .jsonDecodeError)
        | .jarr [] =>
            (params,
             [colored ("Error: Unable to fetch coordinates for city " ++ city ++ ".") "red"],
             .ok none)
        | .jarr (o :: _) =>
            match o.lat with
            | none => (params, [], .error (.keyError "lat"))
            | some la =>
                match o.lon with
                | none => (params, [], .error (.keyError "lon"))
                | some lo => (params, [], .ok (some (la, lo)))

/--
`get_forecast(city, lat, lon)` of `forecast.py`.

Same shape as `get_coordinates`: request issued, printed lines, and result.
`.ok (some entries)` models returning the decoded payload (whose `list`
field is `entries`); a payload without a `list` key prints the
coordinate-parameterised message and returns `None`; an undecodable body
raises uncaught (the decode happens in the `else:` suite).
-/
def get_forecast (apiKey city lat lon : String) (resp : FcResponse) :
    FcParams × List String × Except PyExn (Option (List FcEntry)) :=
  let params := forecastParams apiKey lat lon
  match resp with
  | .netError msg =>
      (params, [colored "Error: " "red" ++ " " ++ msg], .ok none)
  | .httpResponse status body =>
      if 400 ≤ status ∧ status < 600 then
        if status = 404 then
          (params, [colored ("Error: City " ++ city ++ " not found.") "red"], .ok none)
        else if status = 401 then
          (params, [colored "Error: Invalid API key" "red"], .ok none)
        else
          (params, [colored "Error: " "red" ++ " " ++ httpErrText status], .ok none)
      else
        match body with
        | .badJson => (params, [], .error .jsonDecodeError)
        | .jobj none =>
            (params,
             [colored ("Error: Unable to fetch forecast data for coordinates lat:"
                        ++ lat ++ " lon:" ++ lon) "red"],
             .ok none)
        | .jobj (some entries) => (params, [], .ok (some entries))

/-- Python `str` of the optional country, as the `format` call of the
header line renders it: `None` prints as the literal text `None`. -/
def pyStr : Option String → String
  | none => "None"
  | some s => s

/-- The header line printed by `print_weather`. -/
def headerLine (city : String) (country : Option String) : String :=
  colored ("Current weather forecast for " ++ city ++ ", " ++ pyStr country ++ ":") "cyan"

/-- Extraction of the three fields of one forecast entry, with the
`KeyError` the corresponding Python lookup raises when a field is absent. -/
def entryFields (e : FcEntry) : Except PyExn (String × String × String) :=
  match e.dt_txt with
  | none => .error (.keyError "dt_txt")
  | some t =>
      match e.main_temp with
      | none => .error (.keyError "temp")
      | some temp =>
          match e.weather0_desc with
          | none => .error (.keyError "description")
          | some d => .ok (t, temp, d)

/-- The per-entry line: a tab, then the colored time, a colon and space,
the colored temperature, the text ` degrees F, `, and the colored
description, exactly as the `format` call of `print_weather` builds it. -/
def fmtLine (t temp d : String) : String :=
  "\t" ++ colored t "yellow" ++ ": " ++ colored temp "green"
       ++ " degrees F, " ++ colored d "blue"

/-- The line `print_weather` emits for a well-formed entry. -/
def lineOf (e : FcEntry) : String :=
  fmtLine (e.dt_txt.getD "") (e.main_temp.getD "") (e.weather0_desc.getD "")

/-- The loop of `print_weather` over the entries of the `list` field: one line
per entry until the first malformed entry, whose exception aborts the loop
and is caught by the `except` clauses, which print an error line. -/
def printLoop : List FcEntry → List String
  | [] => []
  | e :: rest =>
      match entryFields e with
      | .ok (t, temp, d) => fmtLine t temp d :: printLoop rest
      | .error err => [errLine err]

/-- `print_weather(city, country, data)` of `forecast.py`: the header line
(printing it cannot raise), then the entry loop.  The whole body is inside
`try`, and the `except` clauses catch every exception, so `print_weather`
never raises and always returns `None`. -/
def print_weather (city : String) (country : Option String)
    (entries : List FcEntry) : List String :=
  headerLine city country :: printLoop entries

/-- Outcome of argument parsing in `main`: `argparse` either yields the
city and optional country, or raises `SystemExit` (missing city argument,
caught by `main`). -/
inductive ParseResult where
  | ok (city : String) (country : Option String)
  | usageError
deriving DecidableEq

/-- The usage message `main` prints when `argparse` raises `SystemExit`. -/
def usageMsg : String :=
  colored "Error: Invalid command. You must provide a city name. Example: " "red"
    ++ colored "python forecast.py \x27New York\x27" "yellow"

/-- A network request the program issues. -/
inductive Request where
  | geo (p : GeoParams)
  | fc (p : FcParams)
deriving DecidableEq

/-- Observable outcome of one program invocation: the requests issued in
order, the lines printed, and either an exit code or an uncaught
exception. -/
structure MainResult where
  requests : List Request
  output : List String
  exit : Except PyExn Nat
deriving DecidableEq

/--
`main()` of `forecast.py`, run against the two network oracles.

A parse failure prints the usage message and exits 1.  A falsy result of
`get_coordinates` (it returned `None`) exits 1 before any forecast request;
a returned pair `(lat, lon)` is always truthy.  A falsy result of
`get_forecast` exits 1; a returned payload (a dict containing `list`) is
always truthy and is handed to `print_weather`, after which `main` falls
off the end: the process exits 0 whatever `print_weather` printed.
-/
def runMain (apiKey : String) (argv : ParseResult)
    (geoResp : GeoResponse) (fcResp : FcResponse) : MainResult :=
  match argv with
  | .usageError => { requests := [], output := [usageMsg], exit := .ok 1 }
  | .ok city country =>
      let g := get_coordinates apiKey city country geoResp
      match g.2.2 with
      | .error e => { requests := [.geo g.1], output := g.2.1, exit := .error e }
      | .ok none => { requests := [.geo g.1], output := g.2.1, exit := .ok 1 }
      | .ok (some c) =>
          let f := get_forecast apiKey city c.1 c.2 fcResp
          match f.2.2 with
          | .error e =>
              { requests := [.geo g.1, .fc f.1], output := g.2.1 ++ f.2.1, exit := .error e }
          | .ok none =>
              { requests := [.geo g.1, .fc f.1], output := g.2.1 ++ f.2.1, exit := .ok 1 }
          | .ok (some entries) =>
              { requests := [.geo g.1, .fc f.1],
                output := g.2.1 ++ f.2.1 ++ print_weather city country entries,
                exit := .ok 0 }

/-- Process exit code: an uncaught exception makes the Python interpreter
exit with status 1 (after a traceback on stderr). -/
def exitCode (r : MainResult) : Nat :=
  match r.exit with
  | .ok n => n
  | .error _ => 1

/-- Character-list substring scan. -/
def containsAux (pat : List Char) : List Char → Bool
  | [] => pat.isEmpty
  | c :: rest => pat.isPrefixOf (c :: rest) || containsAux pat rest

/-- Substring test (used to state that a message does or does not mention
some text). -/
def strContains (s pat : String) : Bool :=
  containsAux pat.data s.data

/-- A forecast entry every field of which is present. -/
def entryWellFormed (e : FcEntry) : Prop :=
  e.dt_txt.isSome ∧ e.main_temp.isSome ∧ e.weather0_desc.isSome

instance (e : FcEntry) : Decidable (entryWellFormed e) := by
  unfold entryWellFormed; infer_instance

/-- Modelled from the spec's words, for comparison with the program's
`fmtLine`: the per-entry line format claim C6 asserts, which reads
`degrees,` where the program writes `degrees F,`. -/
def specLineC6 (t temp d : String) : String :=
  "\t" ++ colored t "yellow" ++ ": " ++ colored temp "green"
       ++ " degrees, " ++ colored d "blue"

/-- A stage outcome (printed lines, result) in which the error was caught
inside the stage: the stage returns `None` and printed at least one
message. -/
def caughtWithMsg {α : Type} (r : List String × Except PyExn (Option α)) : Prop :=
  r.2 = .ok none ∧ r.1 ≠ []

/-- A stage outcome in which an exception escaped the stage uncaught and
nothing was printed. -/
def silentEscape {α : Type} (r : List String × Except PyExn (Option α))
    (e : PyExn) : Prop :=
  r.2 = .error e ∧ r.1 = []

/-! ## Helper lemmas -/

/-- A well-formed entry's fields extract without an exception. -/
lemma entryFields_of_wellFormed (e : FcEntry) (h : entryWellFormed e) :
    entryFields e = .ok (e.dt_txt.getD "", e.main_temp.getD "", e.weather0_desc.getD "") := by
  obtain ⟨h1, h2, h3⟩ := h
  obtain ⟨t, ht⟩ := Option.isSome_iff_exists.mp h1
  obtain ⟨temp, htemp⟩ := Option.isSome_iff_exists.mp h2
  obtain ⟨d, hd⟩ := Option.isSome_iff_exists.mp h3
  simp [entryFields, ht, htemp, hd]

/-- On a list of well-formed entries the printing loop never aborts: it
emits exactly one formatted line per entry, in order. -/
lemma printLoop_eq_map (entries : List FcEntry)
    (h : ∀ e ∈ entries, entryWellFormed e) :
    printLoop entries = entries.map lineOf := by
  induction entries with
  | nil => rfl
  | cons e rest ih =>
      rw [printLoop, entryFields_of_wellFormed e (h e (by simp))]
      rw [List.map_cons, ih (fun x hx => h x (by simp [hx]))]
      rfl

/-- A status strictly below 400 does not trigger `raise_for_status`. -/
lemma not_raise_of_lt_400 {s : Nat} (hs : s < 400) : ¬(400 ≤ s ∧ s < 600) := by omega

/-! ## Claims -/

/-- C2: whenever the geocode request succeeds (status below 400) and the
decoded body is a non-empty array, `get_coordinates` returns exactly the
`(lat, lon)` pair of the first element, however many elements follow. -/
theorem C2_first_result (apiKey city : String) (country : Option String) (s : Nat)
    (hs : s < 400) (o : GeoObj) (rest : List GeoObj) (la lo : String)
    (hla : o.lat = some la) (hlo : o.lon = some lo) :
    (get_coordinates apiKey city country (.httpResponse s (.jarr (o :: rest)))).2.2 =
      .ok (some (la, lo)) := by
  simp [get_coordinates, not_raise_of_lt_400 hs, hla, hlo]

/-- Witness for C2 at a concrete input: a three-element result array whose
first element is `(40.7, -74.0)`. -/
theorem C2_first_result_witness :
    (get_coordinates "k" "New York" (some "us")
        (.httpResponse 200 (.jarr [⟨some "40.7", some "-74.0"⟩,
            ⟨some "51.5", some "-0.1"⟩, ⟨some "48.85", some "2.35"⟩]))).2.2 =
      .ok (some ("40.7", "-74.0")) :=
  C2_first_result "k" "New York" (some "us") 200 (by decide)
    ⟨some "40.7", some "-74.0"⟩ [⟨some "51.5", some "-0.1"⟩, ⟨some "48.85", some "2.35"⟩]
    "40.7" "-74.0" rfl rfl

/-- C3: on a well-formed forecast payload with `N` entries `print_weather`
prints the header line followed by exactly `N` formatted lines, the `i`-th
line being the formatted triple of the `i`-th entry, in the payload's
order. -/
theorem C3_presenter_lines (city : String) (country : Option String)
    (entries : List FcEntry) (h : ∀ e ∈ entries, entryWellFormed e) :
    print_weather city country entries =
        headerLine city country :: entries.map lineOf ∧
    (print_weather city country entries).length = entries.length + 1 := by
  constructor
  · rw [print_weather, printLoop_eq_map entries h]
  · rw [print_weather, printLoop_eq_map entries h]
    simp

/-- Witness for C3 at a concrete two-entry payload. -/
theorem C3_presenter_lines_witness :
    print_weather "New York" (some "us")
        [⟨some "2024-01-01 12:00:00", some "32.5", some "clear sky"⟩,
         ⟨some "2024-01-01 15:00:00", some "33.1", some "few clouds"⟩] =
      headerLine "New York" (some "us") ::
        [⟨some "2024-01-01 12:00:00", some "32.5", some "clear sky"⟩,
         ⟨some "2024-01-01 15:00:00", some "33.1", some "few clouds"⟩].map lineOf ∧
    (print_weather "New York" (some "us")
        [⟨some "2024-01-01 12:00:00", some "32.5", some "clear sky"⟩,
         ⟨some "2024-01-01 15:00:00", some "33.1", some "few clouds"⟩]).length = 2 + 1 :=
  C3_presenter_lines "New York" (some "us")
    [⟨some "2024-01-01 12:00:00", some "32.5", some "clear sky"⟩,
     ⟨some "2024-01-01 15:00:00", some "33.1", some "few clouds"⟩]
    (by decide)

/-- C6 (counterexample): the program's entry line reads `degrees F,`, not
`degrees,` as the claim states; at a concrete well-formed entry the line
`print_weather` emits differs from the claimed format. -/
theorem C6_counterexample :
    print_weather "New York" (some "us")
        [⟨some "2024-01-01 12:00:00", some "32.5", some "clear sky"⟩] =
      [headerLine "New York" (some "us"),
       fmtLine "2024-01-01 12:00:00" "32.5" "clear sky"] ∧
    fmtLine "2024-01-01 12:00:00" "32.5" "clear sky" ≠
      specLineC6 "2024-01-01 12:00:00" "32.5" "clear sky" ∧
    strContains (fmtLine "2024-01-01 12:00:00" "32.5" "clear sky") " degrees F, " = true := by
  refine ⟨rfl, by decide, by decide⟩

/-- C6 (amended): every entry line `print_weather` emits for a well-formed
entry is tab-indented of the form
`<timestamp>: <temperature> degrees F, <description>`, each field wrapped
in its color codes. -/
theorem C6_line_format (city : String) (country : Option String)
    (entries : List FcEntry) (h : ∀ e ∈ entries, entryWellFormed e)
    (l : String) (hl : l ∈ (print_weather city country entries).tail) :
    ∃ e ∈ entries,
      l = "\t" ++ colored (e.dt_txt.getD "") "yellow" ++ ": "
            ++ colored (e.main_temp.getD "") "green" ++ " degrees F, "
            ++ colored (e.weather0_desc.getD "") "blue" := by
  rw [print_weather, List.tail_cons, printLoop_eq_map entries h] at hl
  obtain ⟨e, he, rfl⟩ := List.mem_map.mp hl
  exact ⟨e, he, rfl⟩

/-- Witness for C6 at a concrete entry. -/
theorem C6_line_format_witness :
    ∃ e ∈ [(⟨some "2024-01-01 15:00:00", some "75.2", some "light rain"⟩ : FcEntry)],
      lineOf (⟨some "2024-01-01 15:00:00", some "75.2", some "light rain"⟩ : FcEntry) =
        "\t" ++ colored (e.dt_txt.getD "") "yellow" ++ ": "
          ++ colored (e.main_temp.getD "") "green" ++ " degrees F, "
          ++ colored (e.weather0_desc.getD "") "blue" :=
  C6_line_format "Oslo" none
    [⟨some "2024-01-01 15:00:00", some "75.2", some "light rain"⟩] (by decide)
    (lineOf ⟨some "2024-01-01 15:00:00", some "75.2", some "light rain"⟩) (by decide)

/-- C7: a successful geocode response decoding to an empty array makes
`get_coordinates` print the "unable to fetch coordinates" message and
return `None`; `main` then exits with status 1, and the only request ever
issued is the geocode request — no forecast request is made. -/
theorem C7_empty_results (apiKey city : String) (country : Option String)
    (s : Nat) (hs : s < 400) (fcResp : FcResponse) :
    (get_coordinates apiKey city country (.httpResponse s (.jarr []))).2 =
      ([colored ("Error: Unable to fetch coordinates for city " ++ city ++ ".") "red"],
       .ok none) ∧
    exitCode (runMain apiKey (.ok city country) (.httpResponse s (.jarr [])) fcResp) = 1 ∧
    (runMain apiKey (.ok city country) (.httpResponse s (.jarr [])) fcResp).requests =
      [.geo (geocodeParams apiKey city country)] := by
  have hns := not_raise_of_lt_400 hs
  refine ⟨by simp [get_coordinates, hns], ?_, ?_⟩ <;>
    simp [runMain, get_coordinates, hns, exitCode]

/-- Witness for C7 at a concrete input. -/
theorem C7_empty_results_witness :
    (get_coordinates "k" "Atlantis" none (.httpResponse 200 (.jarr []))).2 =
      ([colored ("Error: Unable to fetch coordinates for city " ++ "Atlantis" ++ ".") "red"],
       .ok none) ∧
    exitCode (runMain "k" (.ok "Atlantis" none) (.httpResponse 200 (.jarr []))
        (.httpResponse 200 (.jobj (some [])))) = 1 ∧
    (runMain "k" (.ok "Atlantis" none) (.httpResponse 200 (.jarr []))
        (.httpResponse 200 (.jobj (some [])))).requests =
      [.geo (geocodeParams "k" "Atlantis" none)] :=
  C7_empty_results "k" "Atlantis" none 200 (by decide) (.httpResponse 200 (.jobj (some [])))

/-- C8: the geocode request `get_coordinates` issues carries query
`city,country` when a (non-empty) country is given and just `city`
otherwise, and always carries `limit = 1` and the API credential. -/
theorem C8_geocode_query (apiKey city c : String) (hc : c ≠ "") :
    (∀ (country : Option String) (resp : GeoResponse),
        (get_coordinates apiKey city country resp).1 = geocodeParams apiKey city country) ∧
    (geocodeParams apiKey city (some c)).q = city ++ "," ++ c ∧
    (geocodeParams apiKey city none).q = city ∧
    (∀ country : Option String,
        (geocodeParams apiKey city country).limit = 1 ∧
        (geocodeParams apiKey city country).appid = apiKey) := by
  refine ⟨?_, by simp [geocodeParams, hc], rfl, ?_⟩
  · intro country resp
    cases resp with
    | netError m => rfl
    | httpResponse s b =>
        unfold get_coordinates
        dsimp only
        split
        · split
          · rfl
          · split <;> rfl
        · cases b with
          | badJson => rfl
          | jarr xs =>
              cases xs with
              | nil => rfl
              | cons o rest =>
                  obtain ⟨_ | la, _ | lo⟩ := o <;> rfl
  · intro country
    cases country with
    | none => exact ⟨rfl, rfl⟩
    | some c₀ =>
        by_cases h : c₀ = "" <;> simp [geocodeParams, h]

/-- Witness for C8 at concrete inputs. -/
theorem C8_geocode_query_witness :
    (∀ (country : Option String) (resp : GeoResponse),
        (get_coordinates "k" "Paris" country resp).1 = geocodeParams "k" "Paris" country) ∧
    (geocodeParams "k" "Paris" (some "fr")).q = "Paris" ++ "," ++ "fr" ∧
    (geocodeParams "k" "Paris" none).q = "Paris" ∧
    (∀ country : Option String,
        (geocodeParams "k" "Paris" country).limit = 1 ∧
        (geocodeParams "k" "Paris" country).appid = "k") :=
  C8_geocode_query "k" "Paris" "fr" (by decide)

/-- C9: with no city argument `argparse` raises `SystemExit`; `main`
catches it, prints the usage example (which shows the expected invocation
`python forecast.py ...`), exits with status 1, and issues no network
request. -/
theorem C9_missing_city (apiKey : String) (geoResp : GeoResponse) (fcResp : FcResponse) :
    runMain apiKey .usageError geoResp fcResp =
      { requests := [], output := [usageMsg], exit := .ok 1 } ∧
    exitCode (runMain apiKey .usageError geoResp fcResp) = 1 ∧
    strContains usageMsg "python forecast.py" = true :=
  ⟨rfl, rfl, by decide⟩

/-- C10: when no country is supplied (`args.country` defaults to `None`)
and both fetches succeed, the run exits 0 and the header line renders the
country as the literal text `None`. -/
theorem C10_header_none (apiKey city la lo : String)
    (geoResp : GeoResponse) (fcResp : FcResponse) (entries : List FcEntry)
    (hg : (get_coordinates apiKey city none geoResp).2.2 = .ok (some (la, lo)))
    (hf : (get_forecast apiKey city la lo fcResp).2.2 = .ok (some entries)) :
    exitCode (runMain apiKey (.ok city none) geoResp fcResp) = 0 ∧
    colored ("Current weather forecast for " ++ city ++ ", None:") "cyan" ∈
      (runMain apiKey (.ok city none) geoResp fcResp).output := by
  constructor
  · simp [runMain, hg, hf, exitCode]
  · have hh : headerLine city none =
        colored ("Current weather forecast for " ++ city ++ ", None:") "cyan" := by
      rw [headerLine, pyStr]
      congr 1
      rw [String.append_assoc, String.append_assoc]
      rfl
    rw [← hh]
    simp only [runMain, hg, hf, print_weather]
    exact List.mem_append_right _ (List.mem_cons_self _ _)

/-- Witness for C10 at a concrete successful run with no country. -/
theorem C10_header_none_witness :
    exitCode (runMain "k" (.ok "Paris" none)
        (.httpResponse 200 (.jarr [⟨some "48.85", some "2.35"⟩]))
        (.httpResponse 200 (.jobj (some [])))) = 0 ∧
    colored ("Current weather forecast for " ++ "Paris" ++ ", None:") "cyan" ∈
      (runMain "k" (.ok "Paris" none)
        (.httpResponse 200 (.jarr [⟨some "48.85", some "2.35"⟩]))
        (.httpResponse 200 (.jobj (some [])))).output :=
  C10_header_none "k" "Paris" "48.85" "2.35"
    (.httpResponse 200 (.jarr [⟨some "48.85", some "2.35"⟩]))
    (.httpResponse 200 (.jobj (some []))) [] rfl rfl

/-- C1 (counterexample): a run whose forecast payload has a `list` entry
missing `dt_txt` fails while printing (the header is followed by an error
line, no forecast line), yet the process exits with status 0 — the claim
demands exit status 1 for malformed forecast data met while printing. -/
theorem C1_counterexample :
    exitCode (runMain "k" (.ok "Paris" none)
        (.httpResponse 200 (.jarr [⟨some "48.85", some "2.35"⟩]))
        (.httpResponse 200 (.jobj (some [⟨none, some "32.5", some "clear sky"⟩])))) = 0 ∧
    (runMain "k" (.ok "Paris" none)
        (.httpResponse 200 (.jarr [⟨some "48.85", some "2.35"⟩]))
        (.httpResponse 200 (.jobj (some [⟨none, some "32.5", some "clear sky"⟩])))).output =
      [headerLine "Paris" none, errLine (.keyError "dt_txt")] := by
  constructor
  · rfl
  · rfl

/-- C1 (amended): the exit code is 0 exactly when argument parsing,
geocoding and the forecast fetch all succeed — i.e. exactly when
`print_weather` is reached; it is 1 on a missing city argument, a geocode
failure, or a forecast fetch failure (including an uncaught exception,
which also makes the interpreter exit 1).  Malformed forecast data met
while printing entries does not change the exit code from 0. -/
theorem C1_exit_code (apiKey : String) (argv : ParseResult)
    (geoResp : GeoResponse) (fcResp : FcResponse) :
    exitCode (runMain apiKey argv geoResp fcResp) = 0 ↔
      ∃ city country la lo entries,
        argv = .ok city country ∧
        (get_coordinates apiKey city country geoResp).2.2 = .ok (some (la, lo)) ∧
        (get_forecast apiKey city la lo fcResp).2.2 = .ok (some entries) := by
  cases argv with
  | usageError =>
      constructor
      · intro h; cases h
      · rintro ⟨c', co', la, lo, en, heq, -, -⟩; cases heq
  | ok city country =>
      rcases hg : (get_coordinates apiKey city country geoResp).2.2 with e | _ | ⟨la0, lo0⟩
      · constructor
        · intro h; rw [exitCode] at h; simp [runMain, hg] at h
        · rintro ⟨c', co', la, lo, en, heq, hgc, -⟩
          injection heq with h1 h2; subst h1; subst h2
          rw [hg] at hgc; cases hgc
      · constructor
        · intro h; rw [exitCode] at h; simp [runMain, hg] at h
        · rintro ⟨c', co', la, lo, en, heq, hgc, -⟩
          injection heq with h1 h2; subst h1; subst h2
          rw [hg] at hgc; injection hgc with h3; cases h3
      · rcases hf : (get_forecast apiKey city la0 lo0 fcResp).2.2 with e | _ | en0
        · constructor
          · intro h; rw [exitCode] at h; simp [runMain, hg, hf] at h
          · rintro ⟨c', co', la, lo, en, heq, hgc, hfc⟩
            injection heq with h1 h2; subst h1; subst h2
            rw [hg] at hgc; injection hgc with h3; injection h3 with h4
            obtain ⟨h5, h6⟩ := Prod.mk.injEq .. ▸ h4
            subst h5; subst h6
            rw [hf] at hfc; cases hfc
        · constructor
          · intro h; rw [exitCode] at h; simp [runMain, hg, hf] at h
          · rintro ⟨c', co', la, lo, en, heq, hgc, hfc⟩
            injection heq with h1 h2; subst h1; subst h2
            rw [hg] at hgc; injection hgc with h3; injection h3 with h4
            obtain ⟨h5, h6⟩ := Prod.mk.injEq .. ▸ h4
            subst h5; subst h6
            rw [hf] at hfc; injection hfc with h7; cases h7
        · constructor
          · intro _
            exact ⟨city, country, la0, lo0, en0, rfl, hg, hf⟩
          · intro _
            rw [exitCode]; simp [runMain, hg, hf]

/-- C4 (counterexample): a successful geocode response (status 200) whose
first array element lacks the `lat` field makes `get_coordinates` raise an
uncaught `KeyError` with no message printed — the error neither is caught
at its stage nor produces a user-facing message, contrary to the claim. -/
theorem C4_counterexample :
    (get_coordinates "k" "Paris" none
        (.httpResponse 200 (.jarr [⟨none, some "2.35"⟩]))).2 =
      ([], .error (.keyError "lat")) ∧
    (get_coordinates "k" "Paris" none (.httpResponse 200 .badJson)).2 =
      ([], .error .jsonDecodeError) :=
  ⟨rfl, rfl⟩

/-- C4 (amended): errors raised while issuing the HTTP request or checking
its status are caught inside the fetch stage and reported with a printed
message before the stage returns `None`, and a malformed entry met while
printing is likewise caught with a printed message; but an exception
raised while decoding the body of a successful response or extracting
`lat`/`lon` from its first element escapes the stage uncaught with nothing
printed. -/
theorem C4_error_catching (apiKey city lat lon : String) (country : Option String) :
    (∀ msg, caughtWithMsg (get_coordinates apiKey city country (.netError msg)).2) ∧
    (∀ s (b : GeoBody), 400 ≤ s → s < 600 →
        caughtWithMsg (get_coordinates apiKey city country (.httpResponse s b)).2) ∧
    (∀ s, s < 400 →
        silentEscape (get_coordinates apiKey city country
          (.httpResponse s .badJson)).2 .jsonDecodeError) ∧
    (∀ s (lo? : Option String) rest, s < 400 →
        silentEscape (get_coordinates apiKey city country
          (.httpResponse s (.jarr (⟨none, lo?⟩ :: rest)))).2 (.keyError "lat")) ∧
    (∀ s la₀ rest, s < 400 →
        silentEscape (get_coordinates apiKey city country
          (.httpResponse s (.jarr (⟨some la₀, none⟩ :: rest)))).2 (.keyError "lon")) ∧
    (∀ msg, caughtWithMsg (get_forecast apiKey city lat lon (.netError msg)).2) ∧
    (∀ s (b : FcBody), 400 ≤ s → s < 600 →
        caughtWithMsg (get_forecast apiKey city lat lon (.httpResponse s b)).2) ∧
    (∀ s, s < 400 →
        silentEscape (get_forecast apiKey city lat lon
          (.httpResponse s .badJson)).2 .jsonDecodeError) ∧
    (∀ (e : FcEntry) rest err, entryFields e = .error err →
        printLoop (e :: rest) = [errLine err]) := by
  refine ⟨?_, ?_, ?_, ?_, ?_, ?_, ?_, ?_, ?_⟩
  · intro msg; exact ⟨rfl, by simp [get_coordinates]⟩
  · intro s b h1 h2
    unfold caughtWithMsg
    simp only [get_coordinates]
    rw [if_pos ⟨h1, h2⟩]
    split_ifs <;> exact ⟨rfl, by simp⟩
  · intro s hs
    exact ⟨by simp [get_coordinates, not_raise_of_lt_400 hs], by
      simp [get_coordinates, not_raise_of_lt_400 hs]⟩
  · intro s lo? rest hs
    exact ⟨by simp [get_coordinates, not_raise_of_lt_400 hs], by
      simp [get_coordinates, not_raise_of_lt_400 hs]⟩
  · intro s la₀ rest hs
    exact ⟨by simp [get_coordinates, not_raise_of_lt_400 hs], by
      simp [get_coordinates, not_raise_of_lt_400 hs]⟩
  · intro msg; exact ⟨rfl, by simp [get_forecast]⟩
  · intro s b h1 h2
    unfold caughtWithMsg
    simp only [get_forecast]
    rw [if_pos ⟨h1, h2⟩]
    split_ifs <;> exact ⟨rfl, by simp⟩
  · intro s hs
    exact ⟨by simp [get_forecast, not_raise_of_lt_400 hs], by
      simp [get_forecast, not_raise_of_lt_400 hs]⟩
  · intro e rest err h
    rw [printLoop, h]

/-- Witness for C4 at concrete inputs: a network failure and a 500 status
are caught with a message; an undecodable successful body escapes both
fetchers silently; a malformed entry is caught by the presenter. -/
theorem C4_error_catching_witness :
    caughtWithMsg (get_coordinates "k" "Paris" none (.netError "connection refused")).2 ∧
    caughtWithMsg (get_coordinates "k" "Paris" none (.httpResponse 500 .badJson)).2 ∧
    silentEscape (get_coordinates "k" "Paris" none
      (.httpResponse 200 .badJson)).2 .jsonDecodeError ∧
    silentEscape (get_forecast "k" "Paris" "48.85" "2.35"
      (.httpResponse 200 .badJson)).2 .jsonDecodeError ∧
    printLoop [⟨some "2024-01-01 12:00:00", none, some "clear sky"⟩] =
      [errLine (.keyError "temp")] := by
  have h := C4_error_catching "k" "Paris" "48.85" "2.35" none
  exact ⟨h.1 "connection refused",
         h.2.1 500 .badJson (by decide) (by decide),
         h.2.2.1 200 (by decide),
         h.2.2.2.2.2.2.2.1 200 (by decide),
         h.2.2.2.2.2.2.2.2 ⟨some "2024-01-01 12:00:00", none, some "clear sky"⟩ []
           (.keyError "temp") rfl⟩

/-- C5 (counterexample): on a 404 from the forecast endpoint the message
`get_forecast` prints names the city and mentions neither coordinate,
contrary to the claim that it is parameterized by the coordinates. -/
theorem C5_counterexample :
    (get_forecast "k" "Paris" "48.85" "2.35" (.httpResponse 404 (.jobj (some [])))).2.1 =
      [colored "Error: City Paris not found." "red"] ∧
    strContains (colored "Error: City Paris not found." "red") "Paris" = true ∧
    strContains (colored "Error: City Paris not found." "red") "48.85" = false ∧
    strContains (colored "Error: City Paris not found." "red") "2.35" = false :=
  ⟨rfl, by decide, by decide, by decide⟩

/-- C5 (amended): on a 404 from the forecast endpoint `get_forecast`
prints the not-found message parameterized by the city name (the same
message the geocode stage uses) and returns `None`, and the program exits
with status 1. -/
theorem C5_forecast_404 (apiKey city la lo : String) (country : Option String)
    (b : FcBody) (geoResp : GeoResponse)
    (hg : (get_coordinates apiKey city country geoResp).2.2 = .ok (some (la, lo))) :
    (get_forecast apiKey city la lo (.httpResponse 404 b)).2 =
      ([colored ("Error: City " ++ city ++ " not found.") "red"], .ok none) ∧
    exitCode (runMain apiKey (.ok city country) geoResp (.httpResponse 404 b)) = 1 := by
  have h1 : (get_forecast apiKey city la lo (.httpResponse 404 b)).2 =
      ([colored ("Error: City " ++ city ++ " not found.") "red"], .ok none) := by
    unfold get_forecast
    norm_num
  refine ⟨h1, ?_⟩
  have h2 : (get_forecast apiKey city la lo (.httpResponse 404 b)).2.2 = .ok none := by
    rw [h1]
  simp [runMain, hg, h2, exitCode]

/-- Witness for C5 at a concrete run. -/
theorem C5_forecast_404_witness :
    (get_forecast "k" "Paris" "48.85" "2.35" (.httpResponse 404 (.jobj none))).2 =
      ([colored ("Error: City " ++ "Paris" ++ " not found.") "red"], .ok none) ∧
    exitCode (runMain "k" (.ok "Paris" (some "fr"))
        (.httpResponse 200 (.jarr [⟨some "48.85", some "2.35"⟩]))
        (.httpResponse 404 (.jobj none))) = 1 :=
  C5_forecast_404 "k" "Paris" "48.85" "2.35" (some "fr") (.jobj none)
    (.httpResponse 200 (.jarr [⟨some "48.85", some "2.35"⟩])) rfl
